import Mathlib

/-!
# atom/browser/web_dialog_helper.cc

A shallow embedding of the file-chooser bridge: the accept-type to dialog
filter translation (`GetFileTypesFromAcceptType`), the dialog set-up
(`WebDialogHelper::RunFileChooser`), the completion callbacks of
`FileSelectHelper` and the directory-listing callbacks of
`DirectoryListerHelper`.

Conventions of the embedding.

* A `base::string16` that the file narrows code unit by code unit (an accept
  type) is the list of its UTF-16 code units, `String16`; a `std::string` or
  `base::FilePath::StringType` is a `String` with one character per element.
* Text that is only carried from one encoding to another (the dialog title,
  a display name) is the `String` of its characters, and `UTF16ToUTF8` and
  `AsUTF16Unsafe` keep the characters.
* A `base::FilePath` is the string it wraps; `base::FilePath()` is `""`.
* Pointers that may be null are `Option`; objects are named by a number.
* Calls that leave the file (the listener, the preference store, the task
  runner, the native dialogs) are recorded in logs, oldest call first.
* Functions and constants of Chromium and of `file_dialog.h` that the file
  uses but does not define are fields of `Host`.
* `AddRef`/`Release` only manage the lifetime of the helper object and are
  not part of the state.
-/

namespace Atom

/-! ## Data model -/

/-- The wrapped string of a `base::FilePath`. -/
abbrev FilePath := String

/-- Identity of a `content::RenderFrameHost` object. -/
abbrev RenderFrameHost := Nat

/-- Identity of a `content::FileSelectListener` object. -/
abbrev FileSelectListener := Nat

/-- Identity of a `NativeWindow` object. -/
abbrev NativeWindow := Nat

/-- The enumeration `blink::mojom::FileChooserParams::Mode`. -/
inductive Mode where
  | kOpen
  | kOpenMultiple
  | kUploadFolder
  | kSave
  deriving DecidableEq, Repr

/-- One `file_dialog::Filter`: `first` is the description, `second` the extensions. -/
abbrev Filter := String × List String

/-- The type `file_dialog::Filters`. -/
abbrev Filters := List Filter

/-- The settings record `file_dialog::DialogSettings`, with the fields this file assigns. -/
structure DialogSettings where
  parent_window : Option NativeWindow
  title : String
  default_path : FilePath
  filters : Filters
  properties : Nat
  force_detached : Bool
  deriving DecidableEq, Repr

/-- What the file takes from Chromium and from `file_dialog.h`: path
operations, the MIME table, the dialog property bits and a
default-constructed `DialogSettings`.

`GetExtensionsForMimeType mime current` is the list that
`net::GetExtensionsForMimeType(mime, &extensions)` appends to a vector that
holds `current`; the function only appends. -/
structure Host where
  BaseName : FilePath → FilePath
  DirName : FilePath → FilePath
  Append : FilePath → FilePath → FilePath
  GetExtensionsForMimeType : String → List String → List String
  FILE_DIALOG_OPEN_FILE : Nat
  FILE_DIALOG_OPEN_DIRECTORY : Nat
  FILE_DIALOG_MULTI_SELECTIONS : Nat
  FILE_DIALOG_CREATE_DIRECTORY : Nat
  FILE_DIALOG_TREAT_PACKAGE_APP_AS_DIRECTORY : Nat
  defaultSettings : DialogSettings

/-- A `base::string16`: its UTF-16 code units. -/
abbrev String16 := List Nat

/-- The UTF-16 code units of one character: itself in the basic plane, a
surrogate pair above it. -/
def utf16Unit (c : Char) : List Nat :=
  if c.toNat < 65536 then [c.toNat]
  else [55296 + (c.toNat - 65536) / 1024, 56320 + (c.toNat - 65536) % 1024]

/-- The `base::string16` that holds the text `s`. -/
def utf16 (s : String) : String16 := s.data.flatMap utf16Unit

/-- The conversion `base::UTF16ToASCII`, which returns
`std::string(utf16.begin(), utf16.end())`: each 16-bit code unit is narrowed
to a `char` and keeps its low eight bits, so ASCII text is unchanged and any
other code unit becomes another byte. The conversion asserts
`IsStringASCII(utf16)` in builds with `DCHECK`s on; the narrowing is what it
computes. -/
def UTF16ToASCII (utf16 : String16) : String :=
  String.mk (utf16.map (fun u => Char.ofNat (u % 256)))

/-- The conversion `base::UTF16ToUTF8`: the same characters. -/
def UTF16ToUTF8 (s : String) : String := s

/-- The conversion `base::FilePath::AsUTF16Unsafe`: the same characters. -/
def AsUTF16Unsafe (p : FilePath) : String := p

/-! ## GetFileTypesFromAcceptType -/

/-- The locals of `GetFileTypesFromAcceptType` that live across loop
iterations, and `mime_lookups`, the MIME types passed to
`net::GetExtensionsForMimeType` so far. The `int` counter is at most the
number of accept types and is kept unbounded. -/
structure AcceptState where
  extensions : List String
  valid_type_count : Int
  description : String
  mime_lookups : List String
  deriving DecidableEq, Repr

/-- The character `ascii_type[0]`; on an empty `std::string` that is the terminator. -/
def firstChar (s : String) : Char := s.data.headD (Char.ofNat 0)

/-- The call `extension.substr(1)`. -/
def substr1 (s : String) : String := String.mk (s.data.drop 1)

/-- Lines 205-227: one iteration of the loop over `accept_types`, after the
conversion of the accept type to `ascii_type`. -/
def acceptTypeBody (H : Host) (st : AcceptState) (ascii_type : String) : AcceptState :=
  let old_extension_size := st.extensions.length
  let st1 : AcceptState :=
    if firstChar ascii_type = '.' then
      { st with extensions := st.extensions ++ [substr1 ascii_type] }
    else
      let description :=
        if ascii_type = "image/*" then "Image Files"
        else if ascii_type = "audio/*" then "Audio Files"
        else if ascii_type = "video/*" then "Video Files"
        else st.description
      { st with
        description := description
        extensions := st.extensions ++ H.GetExtensionsForMimeType ascii_type st.extensions
        mime_lookups := st.mime_lookups ++ [ascii_type] }
  if st1.extensions.length > old_extension_size then
    { st1 with valid_type_count := st1.valid_type_count + 1 }
  else st1

/-- One iteration of the loop over `accept_types` (lines 203-228): line 204
converts the accept type, the rest works on `ascii_type`. -/
def acceptTypeStep (H : Host) (st : AcceptState) (accept_type : String16) : AcceptState :=
  let ascii_type := UTF16ToASCII accept_type
  acceptTypeBody H st ascii_type

/-- The whole loop, from the state before it. -/
def acceptLoop (H : Host) (st : AcceptState) (accept_types : List String16) : AcceptState :=
  accept_types.foldl (acceptTypeStep H) st

/-- The locals before the loop: no extension, count 0, empty description. -/
def acceptInit : AcceptState :=
  { extensions := [], valid_type_count := 0, description := "", mime_lookups := [] }

/-- The function `GetFileTypesFromAcceptType` (lines 192-256). The result is
`none` when `DCHECK(!description.empty())` fails. -/
def GetFileTypesFromAcceptType (H : Host) (accept_types : List String16) :
    Option Filters :=
  if accept_types.isEmpty then some []
  else
    let st := acceptLoop H acceptInit accept_types
    if st.extensions.isEmpty then some []
    else
      let description :=
        if st.valid_type_count > 1 ∨ (st.valid_type_count = 1 ∧ st.description.isEmpty) then
          "Custom Files"
        else st.description
      if description.isEmpty then none
      else some [(description, st.extensions), ("All Files", ["*"])]

/-! ## The accept-type loop, type by type -/

/-- The loop body run over accept types that are already converted. -/
def asciiLoop (H : Host) (st : AcceptState) (ascii_types : List String) : AcceptState :=
  ascii_types.foldl (acceptTypeBody H) st

/-- What one converted accept type adds to the extension vector when the
vector holds `current`: a type that starts with a period adds itself without
the period, any other type adds what the MIME lookup appends. -/
def contribution (H : Host) (current : List String) (ascii_type : String) : List String :=
  if firstChar ascii_type = '.' then [substr1 ascii_type]
  else H.GetExtensionsForMimeType ascii_type current

/-- The contributions of the converted accept types in order, the vector
holding `current` before the first of them. -/
def contributions (H : Host) : List String → List String → List (List String)
  | _, [] => []
  | current, t :: ts =>
    contribution H current t :: contributions H (current ++ contribution H current t) ts

/-- Whether a converted accept type is one of the three wildcards compared at lines 215-220. -/
def isNarrowWildcard (t : String) : Bool :=
  decide (t = "image/*") || decide (t = "audio/*") || decide (t = "video/*")

/-- The description assigned at lines 215-220 for a converted wildcard. -/
def narrowWildcardName (t : String) : String :=
  if t = "image/*" then "Image Files"
  else if t = "audio/*" then "Audio Files"
  else "Video Files"

/-- The description of the first filter in closed form, over the converted accept types. -/
def narrowDescription (H : Host) (ascii_types : List String) : String :=
  if ((contributions H [] ascii_types).filter (fun c => !c.isEmpty)).length = 1 then
    match (ascii_types.filter isNarrowWildcard).getLast? with
    | some t => narrowWildcardName t
    | none => "Custom Files"
  else "Custom Files"

/-- The result dictionary of a dialog promise, seen through
`mate::Dictionary::Get`: a field is the value `Get` stores for that key, and
`none` when `Get` returns false (key missing or of another type) and leaves
its out-parameter as it was. -/
structure Dictionary where
  canceled : Option Bool
  filePaths : Option (List FilePath)
  filePath : Option FilePath
  deriving DecidableEq, Repr

/-- The record `blink::mojom::NativeFileInfo`. -/
structure NativeFileInfo where
  file_path : FilePath
  display_name : String
  deriving DecidableEq, Repr

/-- The union `blink::mojom::FileChooserFileInfo`; this file only builds native files. -/
inductive FileChooserFileInfo where
  | NewNativeFile (native_file : NativeFileInfo)
  deriving DecidableEq, Repr

/-- One call `listener->FileSelected(file_info, base_dir, mode)`. -/
structure FileSelectedCall where
  listener : FileSelectListener
  file_info : List FileChooserFileInfo
  base_dir : FilePath
  mode : Mode
  deriving DecidableEq, Repr

/-- The data members of `FileSelectHelper` (lines 187-189). -/
structure FileSelectHelper where
  render_frame_host_ : Option RenderFrameHost
  listener_ : Option FileSelectListener
  mode_ : Mode
  deriving DecidableEq, Repr

/-- A helper together with what its methods have done outside it:
`delivered` are the `FileSelected` calls, `pref_writes` the values passed to
`SetFilePath(prefs::kSelectFileLastDirectory, _)`, `last_directory` the value
of that preference, `host_derefs` the frame hosts dereferenced, and
`posted_tasks` the arguments of the posted `EnumerateDirectory` tasks. -/
structure State extends FileSelectHelper where
  delivered : List FileSelectedCall
  last_directory : FilePath
  pref_writes : List FilePath
  host_derefs : List RenderFrameHost
  posted_tasks : List FilePath
  deriving DecidableEq, Repr

/-- The constructor of `FileSelectHelper` (lines 41-50). -/
def FileSelectHelper.new (render_frame_host : Option RenderFrameHost)
    (listener : Option FileSelectListener) (mode : Mode) : FileSelectHelper :=
  { render_frame_host_ := render_frame_host, listener_ := listener, mode_ := mode }

/-- A helper that has not acted yet, with the preference at `last_directory`. -/
def State.fresh (h : FileSelectHelper) (last_directory : FilePath) : State :=
  { toFileSelectHelper := h, delivered := [], last_directory := last_directory,
    pref_writes := [], host_derefs := [], posted_tasks := [] }

/-- The entry built by `FileChooserFileInfo::NewNativeFile(NativeFileInfo::New(path, name))`. -/
def nativeFile (path : FilePath) (display_name : String) : FileChooserFileInfo :=
  FileChooserFileInfo.NewNativeFile { file_path := path, display_name := display_name }

/-- The method `FileSelectHelper::OnFilesSelected` (lines 162-169). -/
def OnFilesSelected (file_info : List FileChooserFileInfo) (base_dir : FilePath)
    (w : State) : State :=
  let w1 : State :=
    match w.listener_ with
    | some l =>
      { w with
        delivered := w.delivered ++
          [{ listener := l, file_info := file_info, base_dir := base_dir, mode := w.mode_ }]
        listener_ := none }
    | none => w
  { w1 with render_frame_host_ := none }

/-- The method `FileSelectHelper::OnDirectoryListerDone` (lines 76-80). -/
def OnDirectoryListerDone (file_info : List FileChooserFileInfo) (base_dir : FilePath)
    (w : State) : State :=
  OnFilesSelected file_info base_dir w

/-- Lines 133-138 of `OnOpenDialogDone`: the write of the last-directory preference. -/
def writeLastDirectory (H : Host) (paths : List FilePath) (w : State) : State :=
  match w.render_frame_host_ with
  | some rfh =>
    if !paths.isEmpty then
      { w with
        host_derefs := w.host_derefs ++ [rfh]
        pref_writes := w.pref_writes ++ [H.DirName (paths.headD "")]
        last_directory := H.DirName (paths.headD "") }
    else w
  | none => w

/-- The method `FileSelectHelper::OnOpenDialogDone` (lines 101-144). -/
def OnOpenDialogDone (H : Host) (result : Dictionary) (w : State) : State :=
  let canceled : Bool := result.canceled.getD true
  if !canceled then
    match result.filePaths with
    | some paths =>
      if w.mode_ = Mode.kUploadFolder ∧ paths.length ≥ 1 then
        let base_dir : FilePath := paths.headD ""
        let w1 : State := { w with posted_tasks := w.posted_tasks ++ [base_dir] }
        -- ready_to_call_listener stays false
        writeLastDirectory H paths w1
      else
        let file_info : List FileChooserFileInfo :=
          paths.map (fun path => nativeFile path (AsUTF16Unsafe (H.BaseName path)))
        -- ready_to_call_listener = true
        OnFilesSelected file_info "" (writeLastDirectory H paths w)
    | none => w
  else w

/-- The method `FileSelectHelper::OnSaveDialogDone` (lines 146-160). -/
def OnSaveDialogDone (H : Host) (result : Dictionary) (w : State) : State :=
  let canceled : Bool := result.canceled.getD true
  let file_info : List FileChooserFileInfo :=
    if !canceled then
      match result.filePath with
      | some path => [nativeFile path (AsUTF16Unsafe (H.BaseName path))]
      | none => []
    else []
  OnFilesSelected file_info "" w

/-- The observer method `RenderFrameHostChanged` (lines 172-176). -/
def RenderFrameHostChanged (old_host _new_host : Option RenderFrameHost) (w : State) : State :=
  if old_host = w.render_frame_host_ then { w with render_frame_host_ := none } else w

/-- The observer method `RenderFrameDeleted` (lines 179-182). -/
def RenderFrameDeleted (deleted_host : Option RenderFrameHost) (w : State) : State :=
  if deleted_host = w.render_frame_host_ then { w with render_frame_host_ := none } else w

/-- The observer method `WebContentsDestroyed` (line 185). -/
def WebContentsDestroyed (w : State) : State :=
  { w with render_frame_host_ := none }

/-- The calls a `FileSelectHelper` receives from outside after its construction. -/
inductive Event where
  | OnOpenDialogDone (result : Dictionary)
  | OnSaveDialogDone (result : Dictionary)
  | OnDirectoryListerDone (file_info : List FileChooserFileInfo) (base_dir : FilePath)
  | RenderFrameHostChanged (old_host new_host : Option RenderFrameHost)
  | RenderFrameDeleted (deleted_host : Option RenderFrameHost)
  | WebContentsDestroyed
  deriving DecidableEq, Repr

/-- The state after one call. -/
def step (H : Host) (w : State) : Event → State
  | Event.OnOpenDialogDone result => OnOpenDialogDone H result w
  | Event.OnSaveDialogDone result => OnSaveDialogDone H result w
  | Event.OnDirectoryListerDone file_info base_dir => OnDirectoryListerDone file_info base_dir w
  | Event.RenderFrameHostChanged old_host new_host => RenderFrameHostChanged old_host new_host w
  | Event.RenderFrameDeleted deleted_host => RenderFrameDeleted deleted_host w
  | Event.WebContentsDestroyed => WebContentsDestroyed w

/-- The state after a sequence of calls, first call first. -/
def run (H : Host) (w : State) (events : List Event) : State :=
  events.foldl (step H) w

/-- Whether a call is one of the three `WebContentsObserver` notifications. -/
def Event.isObserver : Event → Bool
  | Event.RenderFrameHostChanged _ _ => true
  | Event.RenderFrameDeleted _ => true
  | Event.WebContentsDestroyed => true
  | _ => false

/-! ## DirectoryListerHelper -/

/-- The data members of `DirectoryListerHelper` that the callbacks use;
the delegate is the `FileSelectHelper` of the state it is run on. -/
structure DirectoryListerHelper where
  base_dir_ : FilePath
  paths_ : List FilePath
  deriving DecidableEq, Repr

/-- What `OnListFile` reads of a `net::DirectoryLister::DirectoryListerData`:
`data.path` and `data.info.IsDirectory()`. -/
structure DirectoryListerData where
  path : FilePath
  IsDirectory : Bool
  deriving DecidableEq, Repr

/-- The constructor of `DirectoryListerHelper` (lines 262-265). -/
def DirectoryListerHelper.new (base : FilePath) : DirectoryListerHelper :=
  { base_dir_ := base, paths_ := [] }

/-- The method `FileSelectHelper::EnumerateDirectory` (lines 87-99): the
helper handed to the new `net::DirectoryLister`. -/
def EnumerateDirectory (base_dir : FilePath) : DirectoryListerHelper :=
  DirectoryListerHelper.new base_dir

/-- The method `DirectoryListerHelper::OnListFile` (lines 268-275). -/
def OnListFile (d : DirectoryListerHelper) (data : DirectoryListerData) :
    DirectoryListerHelper :=
  if data.IsDirectory then d else { d with paths_ := d.paths_ ++ [data.path] }

/-- The method `DirectoryListerHelper::OnListDone` (lines 276-284). -/
def OnListDone (_error : Int) (d : DirectoryListerHelper) (w : State) : State :=
  let file_info : List FileChooserFileInfo := d.paths_.map (fun path => nativeFile path "")
  OnDirectoryListerDone file_info d.base_dir_ w

/-- A run of the `net::DirectoryLister` started by `EnumerateDirectory`:
`OnListFile` for each entry it reports, in order, and then `OnListDone`. -/
def listDirectory (base_dir : FilePath) (reported : List DirectoryListerData) (error : Int)
    (w : State) : State :=
  OnListDone error (reported.foldl OnListFile (EnumerateDirectory base_dir)) w

/-! ## WebDialogHelper -/

/-- The data members of `WebDialogHelper` that `RunFileChooser` reads. -/
structure WebDialogHelper where
  window_ : Option NativeWindow
  offscreen_ : Bool
  deriving DecidableEq, Repr

/-- The fields of `blink::mojom::FileChooserParams` that `RunFileChooser` reads. -/
structure FileChooserParams where
  mode : Mode
  title : String
  default_file_name : FilePath
  accept_types : List String16
  deriving DecidableEq, Repr

/-- A call of a native dialog of `file_dialog`. -/
inductive DialogCall where
  | ShowOpenDialog (settings : DialogSettings)
  | ShowSaveDialog (settings : DialogSettings)
  deriving DecidableEq, Repr

/-- What `RunFileChooser` leaves behind: the helper it constructed, the
dialogs it showed and the frame hosts it dereferenced. -/
structure RunFileChooserResult where
  file_select_helper : FileSelectHelper
  dialogs : List DialogCall
  host_derefs : List RenderFrameHost
  deriving DecidableEq, Repr

/-- The switch of lines 307-321; `none` is `NOTREACHED()`. -/
def openDialogFlags (H : Host) (mode : Mode) : Option Nat :=
  let flags := H.FILE_DIALOG_CREATE_DIRECTORY
  match mode with
  | Mode.kOpenMultiple =>
    some (((flags ||| H.FILE_DIALOG_MULTI_SELECTIONS) ||| H.FILE_DIALOG_OPEN_FILE) |||
      H.FILE_DIALOG_TREAT_PACKAGE_APP_AS_DIRECTORY)
  | Mode.kOpen =>
    some ((flags ||| H.FILE_DIALOG_OPEN_FILE) ||| H.FILE_DIALOG_TREAT_PACKAGE_APP_AS_DIRECTORY)
  | Mode.kUploadFolder => some (flags ||| H.FILE_DIALOG_OPEN_DIRECTORY)
  | Mode.kSave => none

/-- The method `WebDialogHelper::RunFileChooser` (lines 291-331).
`last_directory` is the value of `prefs::kSelectFileLastDirectory`; the result
is `none` when a `DCHECK` or `NOTREACHED()` on the way fails. -/
def RunFileChooser (H : Host) (self : WebDialogHelper) (last_directory : FilePath)
    (render_frame_host : RenderFrameHost) (listener : Option FileSelectListener)
    (params : FileChooserParams) : Option RunFileChooserResult :=
  match GetFileTypesFromAcceptType H params.accept_types with
  | none => none
  | some filters =>
    let settings : DialogSettings :=
      { H.defaultSettings with
        force_detached := self.offscreen_
        filters := filters
        parent_window := self.window_
        title := UTF16ToUTF8 params.title }
    let file_select_helper := FileSelectHelper.new (some render_frame_host) listener params.mode
    if params.mode = Mode.kSave then
      some
        { file_select_helper := file_select_helper
          dialogs :=
            [DialogCall.ShowSaveDialog { settings with default_path := params.default_file_name }]
          host_derefs := [] }
    else
      match openDialogFlags H params.mode with
      | none => none
      | some flags =>
        some
          { file_select_helper := file_select_helper
            dialogs :=
              [DialogCall.ShowOpenDialog
                { settings with
                  default_path := H.Append last_directory params.default_file_name
                  properties := flags }]
            host_derefs := [render_frame_host] }

/-! ## Dialog property bits -/

/-- Whether the bits of `flag` are all set in `properties`: `(properties & flag) == flag`. -/
def hasFlag (properties flag : Nat) : Bool := decide (properties &&& flag = flag)

/-- The five dialog property constants are single bits, no two of them the same bit. -/
def Host.SingleBits (H : Host) : Prop :=
  ∃ a b c d e : Nat, [a, b, c, d, e].Nodup ∧
    H.FILE_DIALOG_OPEN_FILE = 2 ^ a ∧
    H.FILE_DIALOG_OPEN_DIRECTORY = 2 ^ b ∧
    H.FILE_DIALOG_MULTI_SELECTIONS = 2 ^ c ∧
    H.FILE_DIALOG_CREATE_DIRECTORY = 2 ^ d ∧
    H.FILE_DIALOG_TREAT_PACKAGE_APP_AS_DIRECTORY = 2 ^ e

/-! ## Relations between states -/

/-- The number of `FileSelected` calls a helper can still make. -/
def pending (w : State) : Nat := if w.listener_.isSome then 1 else 0

/-- From `w` to `w1` the delivered calls only grew, by no more than the
decrease of `pending`. -/
def Budget (w w1 : State) : Prop :=
  ∃ extra, w1.delivered = w.delivered ++ extra ∧ extra.length + pending w1 ≤ pending w

/-- From `w` to `w1` the listener, the mode, the delivered calls and the posted
tasks are the same. -/
def Keeps (w w1 : State) : Prop :=
  w1.listener_ = w.listener_ ∧ w1.mode_ = w.mode_ ∧ w1.delivered = w.delivered ∧
    w1.posted_tasks = w.posted_tasks

/-! ## A concrete host -/

/-- The last component of a slash-separated path. -/
def demoBaseName (p : FilePath) : FilePath :=
  String.mk (p.data.reverse.takeWhile (fun c => c != '/')).reverse

/-- A slash-separated path without its last component. -/
def demoDirName (p : FilePath) : FilePath :=
  String.mk ((p.data.reverse.dropWhile (fun c => c != '/')).drop 1).reverse

/-- A small MIME table; extensions already in the vector are not appended again. -/
def demoExtensions (mime : String) (current : List String) : List String :=
  let found : List String :=
    if mime = "image/*" then ["png", "jpg"]
    else if mime = "audio/*" then ["mp3"]
    else if mime = "image/png" then ["png"]
    else if mime = "text/plain" then ["txt"]
    else []
  found.filter (fun e => !current.contains e)

/-- A host with slash-separated paths and the property bits of `file_dialog.h`. -/
def demoHost : Host :=
  { BaseName := demoBaseName
    DirName := demoDirName
    Append := fun a b => a ++ "/" ++ b
    GetExtensionsForMimeType := demoExtensions
    FILE_DIALOG_OPEN_FILE := 2 ^ 0
    FILE_DIALOG_OPEN_DIRECTORY := 2 ^ 1
    FILE_DIALOG_MULTI_SELECTIONS := 2 ^ 2
    FILE_DIALOG_CREATE_DIRECTORY := 2 ^ 3
    FILE_DIALOG_TREAT_PACKAGE_APP_AS_DIRECTORY := 2 ^ 7
    defaultSettings :=
      { parent_window := none, title := "", default_path := "", filters := [],
        properties := 0, force_detached := false } }

/-! ## Lemmas on the accept-type loop -/

theorem asciiLoop_cons (H : Host) (st : AcceptState) (t : String) (ts : List String) :
    asciiLoop H st (t :: ts) = asciiLoop H (acceptTypeBody H st t) ts := rfl

theorem acceptTypeBody_extensions (H : Host) (st : AcceptState) (t : String) :
    (acceptTypeBody H st t).extensions = st.extensions ++ contribution H st.extensions t := by
  unfold acceptTypeBody contribution
  by_cases h : firstChar t = '.' <;> simp only [h, if_true, if_false] <;> split_ifs <;> rfl

theorem acceptTypeBody_count (H : Host) (st : AcceptState) (t : String) :
    (acceptTypeBody H st t).valid_type_count =
      st.valid_type_count + if (contribution H st.extensions t).isEmpty then 0 else 1 := by
  unfold acceptTypeBody contribution
  by_cases h : firstChar t = '.'
  · simp [h]
  · simp only [h, if_false]
    cases hc : H.GetExtensionsForMimeType t st.extensions <;> simp

theorem acceptTypeBody_description (H : Host) (st : AcceptState) (t : String) :
    (acceptTypeBody H st t).description =
      if isNarrowWildcard t then narrowWildcardName t else st.description := by
  have key : ∀ (st1 : AcceptState) (c : Prop) [Decidable c],
      (if c then { st1 with valid_type_count := st1.valid_type_count + 1 }
        else st1).description = st1.description := by
    intro st1 c _
    split_ifs <;> rfl
  unfold acceptTypeBody
  dsimp only
  rw [key]
  by_cases h : firstChar t = '.'
  · have h1 : t ≠ "image/*" := by rintro rfl; revert h; decide
    have h2 : t ≠ "audio/*" := by rintro rfl; revert h; decide
    have h3 : t ≠ "video/*" := by rintro rfl; revert h; decide
    simp [h, isNarrowWildcard, h1, h2, h3]
  · by_cases h1 : t = "image/*"
    · subst h1; simp [h, isNarrowWildcard, narrowWildcardName]
    · by_cases h2 : t = "audio/*"
      · subst h2; simp [h, isNarrowWildcard, narrowWildcardName]
      · by_cases h3 : t = "video/*"
        · subst h3; simp [h, isNarrowWildcard, narrowWildcardName]
        · simp [h, isNarrowWildcard, h1, h2, h3]

theorem asciiLoop_extensions (H : Host) (ts : List String) :
    ∀ st : AcceptState,
      (asciiLoop H st ts).extensions =
        st.extensions ++ (contributions H st.extensions ts).flatten := by
  induction ts with
  | nil => intro st; simp [asciiLoop, contributions]
  | cons t ts ih =>
    intro st
    rw [asciiLoop_cons, ih, acceptTypeBody_extensions]
    simp [contributions]

theorem asciiLoop_count (H : Host) (ts : List String) :
    ∀ st : AcceptState,
      (asciiLoop H st ts).valid_type_count =
        st.valid_type_count +
          (((contributions H st.extensions ts).filter (fun c => !c.isEmpty)).length : Int) := by
  induction ts with
  | nil => intro st; simp [asciiLoop, contributions]
  | cons t ts ih =>
    intro st
    rw [asciiLoop_cons, ih, acceptTypeBody_extensions, acceptTypeBody_count]
    cases hc : contribution H st.extensions t with
    | nil => simp [contributions, hc]
    | cons a l => simp [contributions, hc]; ring

theorem asciiLoop_description (H : Host) (ts : List String) :
    ∀ st : AcceptState,
      (asciiLoop H st ts).description =
        match (ts.filter isNarrowWildcard).getLast? with
        | some t => narrowWildcardName t
        | none => st.description := by
  induction ts with
  | nil => intro st; simp [asciiLoop]
  | cons t ts ih =>
    intro st
    rw [asciiLoop_cons, ih, acceptTypeBody_description]
    by_cases hw : isNarrowWildcard t = true
    · rw [List.filter_cons_of_pos hw, if_pos hw]
      cases hl : ts.filter isNarrowWildcard with
      | nil => rfl
      | cons u l =>
        rw [List.getLast?_cons_cons]
        rw [List.getLast?_eq_getLast _ (List.cons_ne_nil u l)]
    · rw [List.filter_cons_of_neg hw, if_neg hw]

theorem narrowWildcardName_ne_empty (t : String) : narrowWildcardName t ≠ "" := by
  unfold narrowWildcardName
  split_ifs <;> decide

theorem flatten_eq_nil_iff_filter (cs : List (List String)) :
    cs.flatten = [] ↔ (cs.filter (fun c => !c.isEmpty)).length = 0 := by
  induction cs with
  | nil => simp
  | cons c cs ih =>
    cases c with
    | nil => simp
    | cons a l => simp

theorem narrowDescription_ne_empty (H : Host) (accept_types : List String) :
    narrowDescription H accept_types ≠ "" := by
  unfold narrowDescription
  split_ifs
  · split
    · exact narrowWildcardName_ne_empty _
    · decide
  · decide

theorem acceptLoop_eq_asciiLoop (H : Host) (st : AcceptState) (accept_types : List String16) :
    acceptLoop H st accept_types = asciiLoop H st (accept_types.map UTF16ToASCII) := by
  unfold acceptLoop asciiLoop
  rw [List.foldl_map]
  rfl

/-- The result of `GetFileTypesFromAcceptType` in closed form. -/
theorem GetFileTypesFromAcceptType_eq (H : Host) (accept_types : List String16) :
    GetFileTypesFromAcceptType H accept_types =
      some (if (contributions H [] (accept_types.map UTF16ToASCII)).flatten = [] then []
        else [(narrowDescription H (accept_types.map UTF16ToASCII),
            (contributions H [] (accept_types.map UTF16ToASCII)).flatten),
          ("All Files", ["*"])]) := by
  unfold GetFileTypesFromAcceptType
  cases accept_types with
  | nil => simp [contributions]
  | cons a rest =>
    rw [acceptLoop_eq_asciiLoop]
    simp only [List.map_cons, List.isEmpty_cons, Bool.false_eq_true, if_false]
    generalize UTF16ToASCII a = t
    generalize rest.map UTF16ToASCII = ts
    have hext : (asciiLoop H acceptInit (t :: ts)).extensions =
        (contributions H [] (t :: ts)).flatten := asciiLoop_extensions H (t :: ts) acceptInit
    have hcnt : (asciiLoop H acceptInit (t :: ts)).valid_type_count =
        (((contributions H [] (t :: ts)).filter (fun c => !c.isEmpty)).length : Int) := by
      rw [asciiLoop_count]; exact zero_add _
    have hdesc : (asciiLoop H acceptInit (t :: ts)).description =
        match ((t :: ts).filter isNarrowWildcard).getLast? with
        | some u => narrowWildcardName u
        | none => "" := asciiLoop_description H (t :: ts) acceptInit
    by_cases he : (contributions H [] (t :: ts)).flatten = []
    · simp [hext, he]
    · have hne : (asciiLoop H acceptInit (t :: ts)).extensions.isEmpty = false := by
        rw [hext]; cases hc : (contributions H [] (t :: ts)).flatten with
        | nil => exact absurd hc he
        | cons a l => rfl
      simp only [hne, Bool.false_eq_true, if_false, he]
      have hfin : (if (asciiLoop H acceptInit (t :: ts)).valid_type_count > 1 ∨
            ((asciiLoop H acceptInit (t :: ts)).valid_type_count = 1 ∧
              (asciiLoop H acceptInit (t :: ts)).description.isEmpty) then "Custom Files"
          else (asciiLoop H acceptInit (t :: ts)).description) =
            narrowDescription H (t :: ts) := by
        have hpos : ((contributions H [] (t :: ts)).filter (fun c => !c.isEmpty)).length ≠ 0 :=
          fun h0 => he ((flatten_eq_nil_iff_filter _).2 h0)
        unfold narrowDescription
        rw [hcnt, hdesc]
        by_cases h1 : ((contributions H [] (t :: ts)).filter (fun c => !c.isEmpty)).length = 1
        · rw [if_pos h1, h1]
          cases hl : ((t :: ts).filter isNarrowWildcard).getLast? with
          | none =>
            have he0 : "".isEmpty = true := by decide
            simp [he0]
          | some u =>
            have hu : (narrowWildcardName u).isEmpty = false := by
              have := narrowWildcardName_ne_empty u
              cases hb : (narrowWildcardName u).isEmpty with
              | false => rfl
              | true => exact absurd ((String.isEmpty_iff _).1 hb) this
            simp [hu]
        · rw [if_neg h1]
          have hgt : (1 : Int) <
              (((contributions H [] (t :: ts)).filter (fun c => !c.isEmpty)).length : Int) := by
            omega
          simp [hgt]
      rw [hfin]
      have hd : (narrowDescription H (t :: ts)).isEmpty = false := by
        cases hb : (narrowDescription H (t :: ts)).isEmpty with
        | false => rfl
        | true => exact absurd ((String.isEmpty_iff _).1 hb) (narrowDescription_ne_empty H _)
      simp [hd, hext]

/-- C5: for every list of accept types `GetFileTypesFromAcceptType` returns
either no filter or exactly two; it returns none exactly when no accept type
contributed an extension (so also on the empty list), and otherwise the first
filter has a non-empty description and a non-empty extension list and the
second is `("All Files", ["*"])`. The contribution of an accept type is that
of its conversion by `UTF16ToASCII`, as in the loop. -/
theorem GetFileTypesFromAcceptType_shape (H : Host) (accept_types : List String16) :
    ∃ filters, GetFileTypesFromAcceptType H accept_types = some filters ∧
      (filters = [] ∨ ∃ description extensions,
          filters = [(description, extensions), ("All Files", ["*"])] ∧
          description ≠ "" ∧ extensions ≠ []) ∧
      (filters = [] ↔ ∀ c ∈ contributions H [] (accept_types.map UTF16ToASCII), c = []) ∧
      (accept_types = [] → filters = []) := by
  refine ⟨_, GetFileTypesFromAcceptType_eq H accept_types, ?_, ?_, ?_⟩
  · by_cases he : (contributions H [] (accept_types.map UTF16ToASCII)).flatten = []
    · left; simp [he]
    · right
      exact ⟨narrowDescription H (accept_types.map UTF16ToASCII),
        (contributions H [] (accept_types.map UTF16ToASCII)).flatten,
        by simp [he], narrowDescription_ne_empty H _, he⟩
  · by_cases he : (contributions H [] (accept_types.map UTF16ToASCII)).flatten = []
    · simp only [he, if_true, true_iff]
      exact List.flatten_eq_nil_iff.1 he
    · simp only [he, if_false]
      constructor
      · intro h; simp at h
      · intro h; exact absurd (List.flatten_eq_nil_iff.2 h) he
  · rintro rfl
    simp [contributions]

theorem OnFilesSelected_some (file_info : List FileChooserFileInfo) (base_dir : FilePath)
    (w : State) (l : FileSelectListener) (hl : w.listener_ = some l) :
    OnFilesSelected file_info base_dir w =
      { w with
        delivered := w.delivered ++
          [{ listener := l, file_info := file_info, base_dir := base_dir, mode := w.mode_ }]
        listener_ := none
        render_frame_host_ := none } := by
  unfold OnFilesSelected
  simp only [hl]

theorem OnFilesSelected_none (file_info : List FileChooserFileInfo) (base_dir : FilePath)
    (w : State) (hl : w.listener_ = none) :
    OnFilesSelected file_info base_dir w = { w with render_frame_host_ := none } := by
  unfold OnFilesSelected
  simp only [hl]

theorem writeLastDirectory_helper (H : Host) (paths : List FilePath) (w : State) :
    (writeLastDirectory H paths w).toFileSelectHelper = w.toFileSelectHelper ∧
      (writeLastDirectory H paths w).delivered = w.delivered ∧
      (writeLastDirectory H paths w).posted_tasks = w.posted_tasks := by
  unfold writeLastDirectory
  cases w.render_frame_host_ with
  | none => exact ⟨rfl, rfl, rfl⟩
  | some rfh => dsimp only; split_ifs <;> exact ⟨rfl, rfl, rfl⟩

theorem Budget.same {w w1 : State} (hd : w1.delivered = w.delivered)
    (hl : w1.listener_ = w.listener_) : Budget w w1 :=
  ⟨[], by simp [hd], by simp [pending, hl]⟩

theorem Budget.trans {w w1 w2 : State} (h1 : Budget w w1) (h2 : Budget w1 w2) : Budget w w2 := by
  obtain ⟨x1, e1, b1⟩ := h1
  obtain ⟨x2, e2, b2⟩ := h2
  refine ⟨x1 ++ x2, by rw [e2, e1, List.append_assoc], ?_⟩
  rw [List.length_append]; omega

theorem OnFilesSelected_budget (file_info : List FileChooserFileInfo) (base_dir : FilePath)
    (w : State) : Budget w (OnFilesSelected file_info base_dir w) := by
  cases hl : w.listener_ with
  | none =>
    rw [OnFilesSelected_none _ _ _ hl]
    exact Budget.same rfl rfl
  | some l =>
    rw [OnFilesSelected_some _ _ _ l hl]
    exact ⟨[{ listener := l, file_info := file_info, base_dir := base_dir, mode := w.mode_ }],
      rfl, by simp [pending, hl]⟩

theorem writeLastDirectory_budget (H : Host) (paths : List FilePath) (w : State) :
    Budget w (writeLastDirectory H paths w) := by
  obtain ⟨h1, h2, -⟩ := writeLastDirectory_helper H paths w
  exact Budget.same h2 (congrArg FileSelectHelper.listener_ h1)

theorem OnOpenDialogDone_budget (H : Host) (result : Dictionary) (w : State) :
    Budget w (OnOpenDialogDone H result w) := by
  unfold OnOpenDialogDone
  dsimp only
  split_ifs with hc
  · cases hp : result.filePaths with
    | none => exact Budget.same rfl rfl
    | some paths =>
      dsimp only
      split_ifs with hm
      · exact @Budget.trans w { w with posted_tasks := w.posted_tasks ++ [paths.headD ""] } _
          (Budget.same rfl rfl) (writeLastDirectory_budget H paths _)
      · exact Budget.trans (writeLastDirectory_budget H paths w) (OnFilesSelected_budget _ _ _)
  · exact Budget.same rfl rfl

theorem RenderFrameHostChanged_keeps (old_host new_host : Option RenderFrameHost) (w : State) :
    Keeps w (RenderFrameHostChanged old_host new_host w) := by
  unfold RenderFrameHostChanged
  split_ifs <;> exact ⟨rfl, rfl, rfl, rfl⟩

theorem RenderFrameDeleted_keeps (deleted_host : Option RenderFrameHost) (w : State) :
    Keeps w (RenderFrameDeleted deleted_host w) := by
  unfold RenderFrameDeleted
  split_ifs <;> exact ⟨rfl, rfl, rfl, rfl⟩

theorem WebContentsDestroyed_keeps (w : State) : Keeps w (WebContentsDestroyed w) :=
  ⟨rfl, rfl, rfl, rfl⟩

theorem Keeps.budget {w w1 : State} (h : Keeps w w1) : Budget w w1 :=
  Budget.same h.2.2.1 h.1

theorem step_budget (H : Host) (w : State) (e : Event) : Budget w (step H w e) := by
  cases e with
  | OnOpenDialogDone result => exact OnOpenDialogDone_budget H result w
  | OnSaveDialogDone result => exact OnFilesSelected_budget _ _ w
  | OnDirectoryListerDone file_info base_dir => exact OnFilesSelected_budget _ _ w
  | RenderFrameHostChanged old_host new_host =>
    exact (RenderFrameHostChanged_keeps old_host new_host w).budget
  | RenderFrameDeleted deleted_host => exact (RenderFrameDeleted_keeps deleted_host w).budget
  | WebContentsDestroyed => exact (WebContentsDestroyed_keeps w).budget

theorem run_budget (H : Host) (events : List Event) :
    ∀ w : State, Budget w (run H w events) := by
  induction events with
  | nil => intro w; exact Budget.same rfl rfl
  | cons e es ih => intro w; exact Budget.trans (step_budget H w e) (ih (step H w e))

theorem step_observer (H : Host) (w : State) (e : Event) (he : e.isObserver = true) :
    Keeps w (step H w e) := by
  cases e with
  | OnOpenDialogDone result => simp [Event.isObserver] at he
  | OnSaveDialogDone result => simp [Event.isObserver] at he
  | OnDirectoryListerDone file_info base_dir => simp [Event.isObserver] at he
  | RenderFrameHostChanged old_host new_host =>
    exact RenderFrameHostChanged_keeps old_host new_host w
  | RenderFrameDeleted deleted_host => exact RenderFrameDeleted_keeps deleted_host w
  | WebContentsDestroyed => exact WebContentsDestroyed_keeps w

theorem run_observer (H : Host) (events : List Event) :
    ∀ w : State, (∀ e ∈ events, e.isObserver = true) → Keeps w (run H w events) := by
  induction events with
  | nil => intro w _; exact ⟨rfl, rfl, rfl, rfl⟩
  | cons e es ih =>
    intro w h
    obtain ⟨a1, a2, a3, a4⟩ := step_observer H w e (h e (List.mem_cons_self e es))
    obtain ⟨b1, b2, b3, b4⟩ := ih (step H w e) (fun x hx => h x (List.mem_cons_of_mem e hx))
    exact ⟨b1.trans a1, b2.trans a2, b3.trans a3, b4.trans a4⟩

theorem foldl_OnListFile_paths (reported : List DirectoryListerData) :
    ∀ d : DirectoryListerHelper,
      (reported.foldl OnListFile d).paths_ =
          d.paths_ ++
            (reported.filter (fun data => !data.IsDirectory)).map (fun data => data.path) ∧
        (reported.foldl OnListFile d).base_dir_ = d.base_dir_ := by
  induction reported with
  | nil => intro d; simp
  | cons data rest ih =>
    intro d
    obtain ⟨h1, h2⟩ := ih (OnListFile d data)
    rw [List.foldl_cons, h1, h2]
    unfold OnListFile
    cases hdir : data.IsDirectory <;> simp [hdir]

/-! ## Claims on FileSelectHelper -/

/-- C1, the code at a canceled open dialog: `OnOpenDialogDone` on a helper in
mode `kOpen` with its listener set returns without calling `FileSelected`
and keeps the listener, and no later observer notification resolves it, while
`OnSaveDialogDone` on a canceled save dialog calls `FileSelected` once with
the empty list. -/
theorem OnOpenDialogDone_canceled_unresolved :
    (OnOpenDialogDone demoHost { canceled := some true, filePaths := some [], filePath := none }
        (State.fresh (FileSelectHelper.new (some 1) (some 7) Mode.kOpen) "/home")).delivered =
        [] ∧
      (OnOpenDialogDone demoHost { canceled := some true, filePaths := some [], filePath := none }
        (State.fresh (FileSelectHelper.new (some 1) (some 7) Mode.kOpen) "/home")).listener_ =
          some 7 ∧
      (run demoHost
        (OnOpenDialogDone demoHost
          { canceled := some true, filePaths := some [], filePath := none }
          (State.fresh (FileSelectHelper.new (some 1) (some 7) Mode.kOpen) "/home"))
        [Event.RenderFrameDeleted (some 1), Event.WebContentsDestroyed]).delivered = [] ∧
      (OnSaveDialogDone demoHost { canceled := some true, filePaths := none, filePath := some "" }
        (State.fresh (FileSelectHelper.new (some 1) (some 7) Mode.kSave) "/home")).delivered =
          [{ listener := 7, file_info := [], base_dir := "", mode := Mode.kSave }] := by
  decide

/-- C2: on a helper whose listener is set, `OnSaveDialogDone` calls
`FileSelected` exactly once, with an empty base directory and the helper's
mode; the file list is the one entry `(path, path.BaseName())` when
`canceled` is false and `filePath` is present, and empty in every other case. -/
theorem OnSaveDialogDone_delivers (H : Host) (result : Dictionary) (w : State)
    (l : FileSelectListener) (hl : w.listener_ = some l) :
    (OnSaveDialogDone H result w).delivered = w.delivered ++
      [{ listener := l
         file_info :=
           match result.canceled, result.filePath with
           | some false, some path => [nativeFile path (H.BaseName path)]
           | _, _ => []
         base_dir := ""
         mode := w.mode_ }] := by
  unfold OnSaveDialogDone
  rw [OnFilesSelected_some _ _ _ l hl]
  rcases hc : result.canceled with _ | _ | _ <;> rcases hp : result.filePath with _ | path <;>
    simp [AsUTF16Unsafe]

/-- Witness of C2: a confirmed save dialog with the path `/home/a.txt`. -/
theorem OnSaveDialogDone_delivers_witness :
    (OnSaveDialogDone demoHost
        { canceled := some false, filePaths := none, filePath := some "/home/a.txt" }
        (State.fresh (FileSelectHelper.new (some 1) (some 7) Mode.kSave) "/home")).delivered =
      [] ++
      [{ listener := 7
         file_info := [nativeFile "/home/a.txt" (demoHost.BaseName "/home/a.txt")]
         base_dir := ""
         mode := Mode.kSave }] :=
  OnSaveDialogDone_delivers demoHost
    { canceled := some false, filePaths := none, filePath := some "/home/a.txt" }
    (State.fresh (FileSelectHelper.new (some 1) (some 7) Mode.kSave) "/home") 7 rfl

/-- C4: for a result that is not canceled and whose `filePaths` is `ps`, when
the mode is not `kUploadFolder` or `ps` is empty and the listener is set,
`OnOpenDialogDone` calls `FileSelected` once, with an empty base directory,
the helper's mode and a file list as long as `ps` whose `i`-th entry is
`(ps[i], ps[i].BaseName())`. -/
theorem OnOpenDialogDone_delivers (H : Host) (result : Dictionary) (w : State)
    (l : FileSelectListener) (ps : List FilePath)
    (hc : result.canceled = some false) (hp : result.filePaths = some ps)
    (hm : w.mode_ ≠ Mode.kUploadFolder ∨ ps = []) (hl : w.listener_ = some l) :
    ∃ file_info : List FileChooserFileInfo,
      (OnOpenDialogDone H result w).delivered = w.delivered ++
        [{ listener := l, file_info := file_info, base_dir := "", mode := w.mode_ }] ∧
      file_info.length = ps.length ∧
      ∀ (i : Nat) (p : FilePath), ps[i]? = some p →
        file_info[i]? = some (nativeFile p (H.BaseName p)) := by
  refine ⟨ps.map (fun p => nativeFile p (H.BaseName p)), ?_, by simp, ?_⟩
  · have hnot : ¬(w.mode_ = Mode.kUploadFolder ∧ ps.length ≥ 1) := by
      rintro ⟨h1, h2⟩
      rcases hm with hm | hm
      · exact hm h1
      · subst hm; simp at h2
    obtain ⟨h1, h2, -⟩ := writeLastDirectory_helper H ps w
    unfold OnOpenDialogDone
    simp only [hc, hp, Option.getD_some, Bool.not_false, if_true, hnot, if_false]
    rw [OnFilesSelected_some _ _ _ l ((congrArg FileSelectHelper.listener_ h1).trans hl)]
    simp only [h2, congrArg FileSelectHelper.mode_ h1, AsUTF16Unsafe]
  · intro i p hi
    simp [List.getElem?_map, hi]

/-- Witness of C4: two files chosen in mode `kOpenMultiple`. -/
theorem OnOpenDialogDone_delivers_witness :
    ∃ file_info : List FileChooserFileInfo,
      (OnOpenDialogDone demoHost
          { canceled := some false, filePaths := some ["/a/b.txt", "/c/d"], filePath := none }
          (State.fresh (FileSelectHelper.new (some 1) (some 7) Mode.kOpenMultiple)
            "/home")).delivered =
        [] ++ [{ listener := 7, file_info := file_info, base_dir := "",
                 mode := Mode.kOpenMultiple }] ∧
      file_info.length = ["/a/b.txt", "/c/d"].length ∧
      ∀ (i : Nat) (p : FilePath), ["/a/b.txt", "/c/d"][i]? = some p →
        file_info[i]? = some (nativeFile p (demoHost.BaseName p)) :=
  OnOpenDialogDone_delivers demoHost
    { canceled := some false, filePaths := some ["/a/b.txt", "/c/d"], filePath := none }
    (State.fresh (FileSelectHelper.new (some 1) (some 7) Mode.kOpenMultiple) "/home")
    7 ["/a/b.txt", "/c/d"] rfl rfl (Or.inl (by decide)) rfl

/-- C7: in mode `kUploadFolder`, for a result that is not canceled and has at
least one path, `OnOpenDialogDone` makes no `FileSelected` call and posts the
enumeration of the first path; the call is made when the directory listing
completes, after any observer notifications in between, with the first
selected path as base directory and a file list made of the reported entries
that are not directories, in the order reported, each with an empty display
name. -/
theorem upload_folder_resolution (H : Host) (result : Dictionary) (w : State)
    (l : FileSelectListener) (p : FilePath) (ps : List FilePath)
    (observed : List Event) (reported : List DirectoryListerData) (error : Int)
    (hm : w.mode_ = Mode.kUploadFolder) (hc : result.canceled = some false)
    (hp : result.filePaths = some (p :: ps)) (hl : w.listener_ = some l)
    (hobs : ∀ e ∈ observed, e.isObserver = true) :
    (OnOpenDialogDone H result w).delivered = w.delivered ∧
      (OnOpenDialogDone H result w).listener_ = some l ∧
      (OnOpenDialogDone H result w).posted_tasks = w.posted_tasks ++ [p] ∧
      (run H (OnOpenDialogDone H result w) observed).delivered = w.delivered ∧
      (listDirectory p reported error (run H (OnOpenDialogDone H result w) observed)).delivered =
        w.delivered ++
          [{ listener := l
             file_info :=
               (reported.filter (fun data => !data.IsDirectory)).map
                 (fun data => nativeFile data.path "")
             base_dir := p
             mode := Mode.kUploadFolder }] := by
  have hopen : OnOpenDialogDone H result w =
      writeLastDirectory H (p :: ps) { w with posted_tasks := w.posted_tasks ++ [p] } := by
    unfold OnOpenDialogDone
    simp [hc, hp, hm]
  obtain ⟨h1, h2, h3⟩ := writeLastDirectory_helper H (p :: ps)
    { w with posted_tasks := w.posted_tasks ++ [p] }
  have hd : (OnOpenDialogDone H result w).delivered = w.delivered := by rw [hopen, h2]
  have hlis : (OnOpenDialogDone H result w).listener_ = some l := by
    rw [hopen, congrArg FileSelectHelper.listener_ h1]; exact hl
  have hmode : (OnOpenDialogDone H result w).mode_ = Mode.kUploadFolder := by
    rw [hopen, congrArg FileSelectHelper.mode_ h1]; exact hm
  obtain ⟨k1, k2, k3, -⟩ := run_observer H observed (OnOpenDialogDone H result w) hobs
  refine ⟨hd, hlis, by rw [hopen, h3], k3.trans hd, ?_⟩
  obtain ⟨f1, f2⟩ := foldl_OnListFile_paths reported (EnumerateDirectory p)
  unfold listDirectory OnListDone OnDirectoryListerDone
  rw [OnFilesSelected_some _ _ _ l (k1.trans hlis), f1, f2]
  simp [k2, k3, hmode, hd, EnumerateDirectory, DirectoryListerHelper.new, List.map_map,
    Function.comp_def]

/-- Witness of C7: the folder `/up` with a file, a directory and a file in it,
and a frame deletion before the listing completes. -/
theorem upload_folder_resolution_witness :
    (OnOpenDialogDone demoHost
        { canceled := some false, filePaths := some ["/up"], filePath := none }
        (State.fresh (FileSelectHelper.new (some 1) (some 7) Mode.kUploadFolder)
          "/home")).delivered = [] ∧
      (OnOpenDialogDone demoHost
        { canceled := some false, filePaths := some ["/up"], filePath := none }
        (State.fresh (FileSelectHelper.new (some 1) (some 7) Mode.kUploadFolder)
          "/home")).listener_ = some 7 ∧
      (OnOpenDialogDone demoHost
        { canceled := some false, filePaths := some ["/up"], filePath := none }
        (State.fresh (FileSelectHelper.new (some 1) (some 7) Mode.kUploadFolder)
          "/home")).posted_tasks = [] ++ ["/up"] ∧
      (run demoHost (OnOpenDialogDone demoHost
        { canceled := some false, filePaths := some ["/up"], filePath := none }
        (State.fresh (FileSelectHelper.new (some 1) (some 7) Mode.kUploadFolder) "/home"))
        [Event.RenderFrameDeleted (some 1)]).delivered = [] ∧
      (listDirectory "/up"
        [{ path := "/up/a", IsDirectory := false }, { path := "/up/d", IsDirectory := true },
          { path := "/up/d/b", IsDirectory := false }] 0
        (run demoHost (OnOpenDialogDone demoHost
          { canceled := some false, filePaths := some ["/up"], filePath := none }
          (State.fresh (FileSelectHelper.new (some 1) (some 7) Mode.kUploadFolder) "/home"))
          [Event.RenderFrameDeleted (some 1)])).delivered =
        [] ++
          [{ listener := 7
             file_info :=
               ([{ path := "/up/a", IsDirectory := false },
                  { path := "/up/d", IsDirectory := true },
                  { path := "/up/d/b", IsDirectory := false }].filter
                  (fun data : DirectoryListerData => !data.IsDirectory)).map
                 (fun data => nativeFile data.path "")
             base_dir := "/up"
             mode := Mode.kUploadFolder }] :=
  upload_folder_resolution demoHost
    { canceled := some false, filePaths := some ["/up"], filePath := none }
    (State.fresh (FileSelectHelper.new (some 1) (some 7) Mode.kUploadFolder) "/home")
    7 "/up" [] [Event.RenderFrameDeleted (some 1)]
    [{ path := "/up/a", IsDirectory := false }, { path := "/up/d", IsDirectory := true },
      { path := "/up/d/b", IsDirectory := false }] 0 rfl rfl rfl rfl (by decide)

/-- C9: over any sequence of calls the delivered calls only grow, by at most
one call, and by none when the listener is already gone; a helper that has
not acted delivers at most once. `OnFilesSelected` with the listener set
delivers one call and clears `listener_` and `render_frame_host_`; without a
listener it delivers nothing. The three observer notifications keep
`listener_` and the delivered calls, and clear `render_frame_host_` exactly
when the reported host is the stored one, `WebContentsDestroyed` always. -/
theorem FileSelected_at_most_once (H : Host) :
    (∀ (w : State) (events : List Event), ∃ extra,
        (run H w events).delivered = w.delivered ++ extra ∧ extra.length ≤ 1 ∧
        (w.listener_ = none → extra = [])) ∧
      (∀ (h : FileSelectHelper) (d : FilePath) (events : List Event),
        (run H (State.fresh h d) events).delivered.length ≤ 1) ∧
      (∀ (file_info : List FileChooserFileInfo) (base_dir : FilePath) (w : State)
          (l : FileSelectListener), w.listener_ = some l →
        (OnFilesSelected file_info base_dir w).delivered = w.delivered ++
          [{ listener := l, file_info := file_info, base_dir := base_dir, mode := w.mode_ }] ∧
        (OnFilesSelected file_info base_dir w).listener_ = none ∧
        (OnFilesSelected file_info base_dir w).render_frame_host_ = none) ∧
      (∀ (file_info : List FileChooserFileInfo) (base_dir : FilePath) (w : State),
        w.listener_ = none →
        (OnFilesSelected file_info base_dir w).delivered = w.delivered ∧
        (OnFilesSelected file_info base_dir w).listener_ = none ∧
        (OnFilesSelected file_info base_dir w).render_frame_host_ = none) ∧
      (∀ (old_host new_host : Option RenderFrameHost) (w : State),
        (RenderFrameHostChanged old_host new_host w).listener_ = w.listener_ ∧
        (RenderFrameHostChanged old_host new_host w).delivered = w.delivered ∧
        (RenderFrameHostChanged old_host new_host w).render_frame_host_ =
          if old_host = w.render_frame_host_ then none else w.render_frame_host_) ∧
      (∀ (deleted_host : Option RenderFrameHost) (w : State),
        (RenderFrameDeleted deleted_host w).listener_ = w.listener_ ∧
        (RenderFrameDeleted deleted_host w).delivered = w.delivered ∧
        (RenderFrameDeleted deleted_host w).render_frame_host_ =
          if deleted_host = w.render_frame_host_ then none else w.render_frame_host_) ∧
      (∀ w : State,
        (WebContentsDestroyed w).listener_ = w.listener_ ∧
        (WebContentsDestroyed w).delivered = w.delivered ∧
        (WebContentsDestroyed w).render_frame_host_ = none) := by
  refine ⟨?_, ?_, ?_, ?_, ?_, ?_, ?_⟩
  · intro w events
    obtain ⟨extra, he, hb⟩ := run_budget H events w
    refine ⟨extra, he, ?_, ?_⟩
    · have : pending w ≤ 1 := by unfold pending; split_ifs <;> omega
      omega
    · intro hn
      have : pending w = 0 := by simp [pending, hn]
      exact List.length_eq_zero.1 (by omega)
  · intro h d events
    obtain ⟨extra, he, hb⟩ := run_budget H events (State.fresh h d)
    have : pending (State.fresh h d) ≤ 1 := by unfold pending; split_ifs <;> omega
    rw [he]
    simp only [State.fresh, List.nil_append]
    omega
  · intro file_info base_dir w l hl
    rw [OnFilesSelected_some _ _ _ l hl]
    exact ⟨rfl, rfl, rfl⟩
  · intro file_info base_dir w hl
    rw [OnFilesSelected_none _ _ _ hl]
    exact ⟨rfl, hl, rfl⟩
  · intro old_host new_host w
    unfold RenderFrameHostChanged
    split_ifs <;> exact ⟨rfl, rfl, rfl⟩
  · intro deleted_host w
    unfold RenderFrameDeleted
    split_ifs <;> exact ⟨rfl, rfl, rfl⟩
  · intro w
    exact ⟨rfl, rfl, rfl⟩

/-- C10: `OnOpenDialogDone` writes the last-selected-directory preference
exactly when the result is not canceled, `filePaths` is present and not empty
and `render_frame_host_` is not null; it then writes `paths[0].DirName()`,
once, in every mode, through the stored frame host. In every other case the
preference and its write log are unchanged and no frame host is dereferenced. -/
theorem OnOpenDialogDone_last_directory (H : Host) (result : Dictionary) (w : State) :
    (∀ (p : FilePath) (ps : List FilePath) (rfh : RenderFrameHost),
        result.canceled = some false → result.filePaths = some (p :: ps) →
        w.render_frame_host_ = some rfh →
        (OnOpenDialogDone H result w).pref_writes = w.pref_writes ++ [H.DirName p] ∧
        (OnOpenDialogDone H result w).last_directory = H.DirName p ∧
        (OnOpenDialogDone H result w).host_derefs = w.host_derefs ++ [rfh]) ∧
      (¬(result.canceled = some false ∧ (∃ p ps, result.filePaths = some (p :: ps)) ∧
          w.render_frame_host_ ≠ none) →
        (OnOpenDialogDone H result w).pref_writes = w.pref_writes ∧
        (OnOpenDialogDone H result w).last_directory = w.last_directory ∧
        (OnOpenDialogDone H result w).host_derefs = w.host_derefs) := by
  have hsel : ∀ (fi : List FileChooserFileInfo) (bd : FilePath) (w1 : State),
      (OnFilesSelected fi bd w1).pref_writes = w1.pref_writes ∧
      (OnFilesSelected fi bd w1).last_directory = w1.last_directory ∧
      (OnFilesSelected fi bd w1).host_derefs = w1.host_derefs := by
    intro fi bd w1
    cases hl : w1.listener_ with
    | none => rw [OnFilesSelected_none _ _ _ hl]; exact ⟨rfl, rfl, rfl⟩
    | some l => rw [OnFilesSelected_some _ _ _ l hl]; exact ⟨rfl, rfl, rfl⟩
  constructor
  · intro p ps rfh hc hp hr
    unfold OnOpenDialogDone
    simp only [hc, hp, Option.getD_some, Bool.not_false, if_true]
    split_ifs with hm
    · simp [writeLastDirectory, hr]
    · obtain ⟨a1, a2, a3⟩ := hsel
        ((p :: ps).map (fun path => nativeFile path (AsUTF16Unsafe (H.BaseName path)))) ""
        (writeLastDirectory H (p :: ps) w)
      rw [a1, a2, a3]
      simp [writeLastDirectory, hr]
  · intro hnot
    unfold OnOpenDialogDone
    rcases hc : result.canceled with _ | _ | _
    · simp
    · cases hp : result.filePaths with
      | none => simp
      | some paths =>
        have hw : (writeLastDirectory H paths w).pref_writes = w.pref_writes ∧
            (writeLastDirectory H paths w).last_directory = w.last_directory ∧
            (writeLastDirectory H paths w).host_derefs = w.host_derefs := by
          unfold writeLastDirectory
          cases hr : w.render_frame_host_ with
          | none => exact ⟨rfl, rfl, rfl⟩
          | some rfh =>
            cases paths with
            | nil => exact ⟨rfl, rfl, rfl⟩
            | cons p ps =>
              exact absurd ⟨hc, ⟨p, ps, hp⟩, by simp [hr]⟩ hnot
        simp only [Option.getD_some, Bool.not_false, if_true]
        split_ifs with hm
        · have hm1 : paths ≠ [] := by
            rintro rfl; simp at hm
          cases hr : w.render_frame_host_ with
          | none => simp [writeLastDirectory, hr]
          | some rfh =>
            cases paths with
            | nil => exact absurd rfl hm1
            | cons p ps => exact absurd ⟨hc, ⟨p, ps, hp⟩, by simp [hr]⟩ hnot
        · obtain ⟨a1, a2, a3⟩ := hsel
            (paths.map (fun path => nativeFile path (AsUTF16Unsafe (H.BaseName path)))) ""
            (writeLastDirectory H paths w)
          rw [a1, a2, a3]
          exact hw
    · simp

/-- Witness of C9: the first `OnFilesSelected` on a helper that has not acted. -/
theorem FileSelected_at_most_once_witness :
    (OnFilesSelected [] "" (State.fresh (FileSelectHelper.new (some 1) (some 7) Mode.kOpen)
        "/home")).delivered =
        [] ++ [{ listener := 7, file_info := [], base_dir := "", mode := Mode.kOpen }] ∧
      (OnFilesSelected [] "" (State.fresh (FileSelectHelper.new (some 1) (some 7) Mode.kOpen)
        "/home")).listener_ = none ∧
      (OnFilesSelected [] "" (State.fresh (FileSelectHelper.new (some 1) (some 7) Mode.kOpen)
        "/home")).render_frame_host_ = none :=
  (FileSelected_at_most_once demoHost).2.2.1 [] ""
    (State.fresh (FileSelectHelper.new (some 1) (some 7) Mode.kOpen) "/home") 7 rfl

/-- Witness of C10: a folder chosen in mode `kUploadFolder` with the frame host alive. -/
theorem OnOpenDialogDone_last_directory_witness :
    (OnOpenDialogDone demoHost
        { canceled := some false, filePaths := some ["/up/x"], filePath := none }
        (State.fresh (FileSelectHelper.new (some 1) (some 7) Mode.kUploadFolder)
          "/home")).pref_writes = [] ++ [demoHost.DirName "/up/x"] ∧
      (OnOpenDialogDone demoHost
        { canceled := some false, filePaths := some ["/up/x"], filePath := none }
        (State.fresh (FileSelectHelper.new (some 1) (some 7) Mode.kUploadFolder)
          "/home")).last_directory = demoHost.DirName "/up/x" ∧
      (OnOpenDialogDone demoHost
        { canceled := some false, filePaths := some ["/up/x"], filePath := none }
        (State.fresh (FileSelectHelper.new (some 1) (some 7) Mode.kUploadFolder)
          "/home")).host_derefs = [] ++ [1] :=
  (OnOpenDialogDone_last_directory demoHost
    { canceled := some false, filePaths := some ["/up/x"], filePath := none }
    (State.fresh (FileSelectHelper.new (some 1) (some 7) Mode.kUploadFolder) "/home")).1
    "/up/x" [] 1 rfl rfl rfl

/-! ## Claims on RunFileChooser -/

theorem hasFlag_two_pow (properties i : Nat) :
    hasFlag properties (2 ^ i) = true ↔ properties.testBit i = true := by
  unfold hasFlag
  rw [decide_eq_true_iff]
  constructor
  · intro h
    have h1 := congrArg (fun n => n.testBit i) h
    simpa [Nat.testBit_and, Nat.testBit_two_pow] using h1
  · intro h
    apply Nat.eq_of_testBit_eq
    intro j
    rw [Nat.testBit_and, Nat.testBit_two_pow]
    by_cases hij : i = j
    · subst hij; simp [h]
    · simp [hij]

theorem demoHost_SingleBits : demoHost.SingleBits :=
  ⟨0, 1, 2, 3, 7, by decide, rfl, rfl, rfl, rfl, rfl⟩

/-- C3: `RunFileChooser` shows exactly one native dialog: a save dialog when
the mode is `kSave`, with `default_path = params.default_file_name`, and
otherwise an open dialog whose properties are
`CREATE_DIRECTORY | OPEN_FILE | TREAT_PACKAGE_APP_AS_DIRECTORY` for `kOpen`,
these and `MULTI_SELECTIONS` for `kOpenMultiple`, and
`CREATE_DIRECTORY | OPEN_DIRECTORY` for `kUploadFolder`; with single-bit
constants `OPEN_FILE` and `OPEN_DIRECTORY` are then never both set and
`MULTI_SELECTIONS` is set only for `kOpenMultiple`. In every mode the
settings carry the filters of `params.accept_types`, the parent window,
`force_detached = offscreen_` and the title. -/
theorem RunFileChooser_dialog (H : Host) (self : WebDialogHelper) (last_directory : FilePath)
    (render_frame_host : RenderFrameHost) (listener : Option FileSelectListener)
    (params : FileChooserParams) :
    ∃ (r : RunFileChooserResult) (settings : DialogSettings),
      RunFileChooser H self last_directory render_frame_host listener params = some r ∧
      r.dialogs =
        [if params.mode = Mode.kSave then DialogCall.ShowSaveDialog settings
          else DialogCall.ShowOpenDialog settings] ∧
      (params.mode = Mode.kSave → settings.default_path = params.default_file_name) ∧
      (params.mode = Mode.kOpen → settings.properties =
        H.FILE_DIALOG_CREATE_DIRECTORY ||| H.FILE_DIALOG_OPEN_FILE |||
          H.FILE_DIALOG_TREAT_PACKAGE_APP_AS_DIRECTORY) ∧
      (params.mode = Mode.kOpenMultiple → settings.properties =
        H.FILE_DIALOG_CREATE_DIRECTORY ||| H.FILE_DIALOG_OPEN_FILE |||
          H.FILE_DIALOG_TREAT_PACKAGE_APP_AS_DIRECTORY ||| H.FILE_DIALOG_MULTI_SELECTIONS) ∧
      (params.mode = Mode.kUploadFolder → settings.properties =
        H.FILE_DIALOG_CREATE_DIRECTORY ||| H.FILE_DIALOG_OPEN_DIRECTORY) ∧
      (H.SingleBits → params.mode ≠ Mode.kSave →
        ¬(hasFlag settings.properties H.FILE_DIALOG_OPEN_FILE ∧
            hasFlag settings.properties H.FILE_DIALOG_OPEN_DIRECTORY) ∧
        (hasFlag settings.properties H.FILE_DIALOG_MULTI_SELECTIONS ↔
          params.mode = Mode.kOpenMultiple)) ∧
      GetFileTypesFromAcceptType H params.accept_types = some settings.filters ∧
      settings.parent_window = self.window_ ∧
      settings.force_detached = self.offscreen_ ∧
      settings.title = params.title := by
  obtain ⟨filters, hfil⟩ : ∃ f, GetFileTypesFromAcceptType H params.accept_types = some f :=
    ⟨_, GetFileTypesFromAcceptType_eq H params.accept_types⟩
  unfold RunFileChooser
  rw [hfil]
  dsimp only
  have hbits : ∀ properties : Nat, H.SingleBits →
      (params.mode = Mode.kOpen → properties =
        H.FILE_DIALOG_CREATE_DIRECTORY ||| H.FILE_DIALOG_OPEN_FILE |||
          H.FILE_DIALOG_TREAT_PACKAGE_APP_AS_DIRECTORY) →
      (params.mode = Mode.kOpenMultiple → properties =
        H.FILE_DIALOG_CREATE_DIRECTORY ||| H.FILE_DIALOG_OPEN_FILE |||
          H.FILE_DIALOG_TREAT_PACKAGE_APP_AS_DIRECTORY ||| H.FILE_DIALOG_MULTI_SELECTIONS) →
      (params.mode = Mode.kUploadFolder → properties =
        H.FILE_DIALOG_CREATE_DIRECTORY ||| H.FILE_DIALOG_OPEN_DIRECTORY) →
      params.mode ≠ Mode.kSave →
        ¬(hasFlag properties H.FILE_DIALOG_OPEN_FILE ∧
            hasFlag properties H.FILE_DIALOG_OPEN_DIRECTORY) ∧
        (hasFlag properties H.FILE_DIALOG_MULTI_SELECTIONS ↔
          params.mode = Mode.kOpenMultiple) := by
    rintro properties ⟨a, b, c, d, e, hnd, ha, hb, hc, hd, he⟩ h1 h2 h3 hs
    simp only [List.nodup_cons, List.mem_cons, List.mem_singleton, not_or, List.not_mem_nil,
      not_false_eq_true, List.nodup_nil, and_true] at hnd
    obtain ⟨⟨ab, ac, ad, ae⟩, ⟨bc, bd, be⟩, ⟨cd, ce⟩, de⟩ := hnd
    simp only [ha, hb, hc, hd, he, hasFlag_two_pow] at h1 h2 h3 ⊢
    cases hmode : params.mode with
    | kSave => exact absurd hmode hs
    | kOpen =>
      rw [h1 hmode]
      simp [Nat.testBit_or, Nat.testBit_two_pow, ab, ac, ad, ae, bc, bd, be, cd, ce, de,
        Ne.symm ab, Ne.symm ac,
        Ne.symm ad, Ne.symm ae, Ne.symm bc, Ne.symm bd, Ne.symm be, Ne.symm cd, Ne.symm ce,
        Ne.symm de]
    | kOpenMultiple =>
      rw [h2 hmode]
      simp [Nat.testBit_or, Nat.testBit_two_pow, ab, ac, ad, ae, bc, bd, be, cd, ce, de,
        Ne.symm ab, Ne.symm ac,
        Ne.symm ad, Ne.symm ae, Ne.symm bc, Ne.symm bd, Ne.symm be, Ne.symm cd, Ne.symm ce,
        Ne.symm de]
    | kUploadFolder =>
      rw [h3 hmode]
      simp [Nat.testBit_or, Nat.testBit_two_pow, ab, ac, ad, ae, bc, bd, be, cd, ce, de,
        Ne.symm ab, Ne.symm ac,
        Ne.symm ad, Ne.symm ae, Ne.symm bc, Ne.symm bd, Ne.symm be, Ne.symm cd, Ne.symm ce,
        Ne.symm de]
  cases hmode : params.mode with
  | kSave =>
    refine ⟨_, { H.defaultSettings with
        force_detached := self.offscreen_, filters := filters, parent_window := self.window_,
        title := params.title, default_path := params.default_file_name }, rfl, ?_, ?_⟩
    · simp [UTF16ToUTF8]
    · simp
  | kOpen =>
    refine ⟨_, { H.defaultSettings with
        force_detached := self.offscreen_, filters := filters, parent_window := self.window_,
        title := params.title, default_path := H.Append last_directory params.default_file_name,
        properties := H.FILE_DIALOG_CREATE_DIRECTORY ||| H.FILE_DIALOG_OPEN_FILE |||
          H.FILE_DIALOG_TREAT_PACKAGE_APP_AS_DIRECTORY }, rfl, ?_, ?_⟩
    · simp [UTF16ToUTF8]
    · refine ⟨by simp, by simp, by simp, by simp, ?_, rfl, rfl, rfl, rfl⟩
      intro hsb hs
      have hb := hbits _ hsb (fun _ => rfl) (by simp [hmode]) (by simp [hmode]) (by simp [hmode])
      rw [hmode] at hb
      exact hb
  | kOpenMultiple =>
    have hor : H.FILE_DIALOG_CREATE_DIRECTORY ||| H.FILE_DIALOG_MULTI_SELECTIONS |||
        H.FILE_DIALOG_OPEN_FILE ||| H.FILE_DIALOG_TREAT_PACKAGE_APP_AS_DIRECTORY =
        H.FILE_DIALOG_CREATE_DIRECTORY ||| H.FILE_DIALOG_OPEN_FILE |||
          H.FILE_DIALOG_TREAT_PACKAGE_APP_AS_DIRECTORY ||| H.FILE_DIALOG_MULTI_SELECTIONS := by
      apply Nat.eq_of_testBit_eq
      intro j
      simp only [Nat.testBit_or]
      cases (H.FILE_DIALOG_CREATE_DIRECTORY.testBit j) <;>
        cases (H.FILE_DIALOG_MULTI_SELECTIONS.testBit j) <;>
        cases (H.FILE_DIALOG_OPEN_FILE.testBit j) <;>
        cases (H.FILE_DIALOG_TREAT_PACKAGE_APP_AS_DIRECTORY.testBit j) <;> rfl
    refine ⟨_, { H.defaultSettings with
        force_detached := self.offscreen_, filters := filters, parent_window := self.window_,
        title := params.title, default_path := H.Append last_directory params.default_file_name,
        properties := H.FILE_DIALOG_CREATE_DIRECTORY ||| H.FILE_DIALOG_OPEN_FILE |||
          H.FILE_DIALOG_TREAT_PACKAGE_APP_AS_DIRECTORY ||| H.FILE_DIALOG_MULTI_SELECTIONS },
      rfl, ?_, ?_⟩
    · simp [UTF16ToUTF8, openDialogFlags, hor]
    · refine ⟨by simp, by simp, by simp, by simp, ?_, rfl, rfl, rfl, rfl⟩
      intro hsb hs
      have hb := hbits _ hsb (by simp [hmode]) (fun _ => rfl) (by simp [hmode]) (by simp [hmode])
      rw [hmode] at hb
      exact hb
  | kUploadFolder =>
    refine ⟨_, { H.defaultSettings with
        force_detached := self.offscreen_, filters := filters, parent_window := self.window_,
        title := params.title, default_path := H.Append last_directory params.default_file_name,
        properties := H.FILE_DIALOG_CREATE_DIRECTORY ||| H.FILE_DIALOG_OPEN_DIRECTORY },
      rfl, ?_, ?_⟩
    · simp [UTF16ToUTF8]
    · refine ⟨by simp, by simp, by simp, by simp, ?_, rfl, rfl, rfl, rfl⟩
      intro hsb hs
      have hb := hbits _ hsb (by simp [hmode]) (by simp [hmode]) (fun _ => rfl) (by simp [hmode])
      rw [hmode] at hb
      exact hb

/-- Witness of C3: a multiple-file request on the concrete host, whose
property constants are single bits. -/
theorem RunFileChooser_dialog_witness :
    demoHost.SingleBits ∧
    ∃ (r : RunFileChooserResult) (settings : DialogSettings),
      RunFileChooser demoHost { window_ := some 3, offscreen_ := true } "/last" 1 (some 7)
        { mode := Mode.kOpenMultiple, title := "Pick", default_file_name := "f.txt",
          accept_types := [utf16 ".txt"] } = some r ∧
      r.dialogs = [DialogCall.ShowOpenDialog settings] ∧
      ¬(hasFlag settings.properties demoHost.FILE_DIALOG_OPEN_FILE ∧
          hasFlag settings.properties demoHost.FILE_DIALOG_OPEN_DIRECTORY) ∧
      hasFlag settings.properties demoHost.FILE_DIALOG_MULTI_SELECTIONS := by
  refine ⟨demoHost_SingleBits, ?_⟩
  obtain ⟨r, settings, h1, h2, -, -, -, -, h7, -⟩ :=
    RunFileChooser_dialog demoHost { window_ := some 3, offscreen_ := true } "/last" 1 (some 7)
      { mode := Mode.kOpenMultiple, title := "Pick", default_file_name := "f.txt",
        accept_types := [utf16 ".txt"] }
  obtain ⟨h8, h9⟩ := h7 demoHost_SingleBits (by decide)
  exact ⟨r, settings, h1, h2, h8, h9.2 rfl⟩

end Atom
